import Mathlib

/-!
Verification of the ground-detection module of the OceanWATERS lander
simulator (`ow_lander/scripts/ground_detection.py`).

The Python module is shallowly embedded below.  Float arithmetic of the
source is modelled by exact rationals (`ℚ`); the one place where IEEE
float behaviour is observable — normalising a zero-magnitude vector,
where numpy produces NaN components and the subsequent `NaN < 0.95`
comparison evaluates to `False` — is modelled explicitly in `diverged`.
The detector's mutable object state becomes an explicit `DetectorState`
that every operation threads through.  Fallible Python operations
(attribute access on `None`, indexing) are modelled with `Except`.
-/

/-- Exact-rational model of a 3-component numpy array / `geometry_msgs`
point, as used for positions and velocities in the source. -/
structure Vec3 where
  x : ℚ
  y : ℚ
  z : ℚ
deriving DecidableEq

instance : Add Vec3 := ⟨fun a b => ⟨a.x + b.x, a.y + b.y, a.z + b.z⟩⟩

instance : Sub Vec3 := ⟨fun a b => ⟨a.x - b.x, a.y - b.y, a.z - b.z⟩⟩

instance : Zero Vec3 := ⟨⟨0, 0, 0⟩⟩

/-- Componentwise division of a vector by a scalar, the
`delta_d / delta_t` of source line 107. -/
def Vec3.sdiv (v : Vec3) (c : ℚ) : Vec3 := ⟨v.x / c, v.y / c, v.z / c⟩

/-- Scalar multiple of a vector (used only in specification statements
about direction-preserving rescalings). -/
def Vec3.smul (c : ℚ) (v : Vec3) : Vec3 := ⟨c * v.x, c * v.y, c * v.z⟩

/-- Dot product `np.dot` of two 3-vectors. -/
def dot3 (a b : Vec3) : ℚ := a.x * b.x + a.y * b.y + a.z * b.z

/-- Model of `np.mean(a, axis=0)`: sum the vectors and divide
componentwise by the count.  (In the source this is only ever applied to
a non-empty window; on `[]` numpy would give NaN while this model gives
`0`, an unreachable difference.) -/
def npMean (l : List Vec3) : Vec3 :=
  (l.foldl (· + ·) 0).sdiv (l.length : ℚ)

/-- Model of `np.isclose(a, b, rtol, atol)`:
`|a - b| <= atol + rtol * |b|`. -/
def npIsClose (a b rtol atol : ℚ) : Bool :=
  decide (|a - b| ≤ atol + rtol * |b|)

/-- Embedding of class `SlidingWindow` (source lines 16-48): a deque
`_que` holding newest elements at the front, a capacity `_size` and a
summarization function `_method`. -/
structure SlidingWindow (α : Type) where
  que : List α
  size : ℕ
  method : List α → α

/-- Embedding of `SlidingWindow.append` (source lines 31-37): when the
deque already holds at least `size` elements, `pop()` drops the element
at the back (the oldest), then `appendleft` pushes `val` at the front. -/
def SlidingWindow.append {α : Type} (w : SlidingWindow α) (val : α) : SlidingWindow α :=
  { w with que := val :: (if w.size ≤ w.que.length then w.que.dropLast else w.que) }

/-- Embedding of the `SlidingWindow.valid` property (source line 42). -/
def SlidingWindow.valid {α : Type} (w : SlidingWindow α) : Bool :=
  w.que.length == w.size

/-- Embedding of the `SlidingWindow.value` property (source line 48). -/
def SlidingWindow.value {α : Type} (w : SlidingWindow α) : α :=
  w.method w.que

/-- Folds a sequence of `append` calls over a window, oldest first. -/
def appendAll {α : Type} (w : SlidingWindow α) (vs : List α) : SlidingWindow α :=
  vs.foldl SlidingWindow.append w

/-- Class constant `GroundDetector.SKIP_SAMPLES_COUNT` (source line 59). -/
def SKIP_SAMPLES_COUNT : ℕ := 5

/-- Class constant `GroundDetector.ROLLING_AVERAGE_WINDOW` (source line 62). -/
def ROLLING_AVERAGE_WINDOW : ℕ := 5

/-- Class constant `GroundDetector.DIRECTION_TOLERANCE` (source line 64). -/
def DIRECTION_TOLERANCE : ℚ := 0.95

/-- Python exceptions that the embedded operations can raise. -/
inductive PyError where
  | attributeError
  | typeError
  | indexError
deriving DecidableEq

/-- Mutable state of a `GroundDetector` instance.  `_last_position` and
`_last_time` are assigned and cleared together as a tuple in the source
(lines 83 and 106), so they are modelled as one optional pair `last`. -/
structure DetectorState where
  last : Option (Vec3 × ℚ)
  groundDetected : Bool
  samplesSkipped : ℕ
  trendingVelocity : SlidingWindow Vec3
  referenceVelocity : Option Vec3

/-- State produced by `GroundDetector.reset` (source lines 81-88), which
is also the state right after construction. -/
def resetState : DetectorState :=
  { last := none
    groundDetected := false
    samplesSkipped := 0
    trendingVelocity := { que := [], size := ROLLING_AVERAGE_WINDOW, method := npMean }
    referenceVelocity := none }

/-- Divergence test of source lines 117-122 in exact arithmetic: the
source normalizes copies of the reference and trending vectors and
tests `dot < DIRECTION_TOLERANCE`.  Over the reals this is
`d / (sqrt(r·r) * sqrt(t·t)) < 0.95`; to stay inside `ℚ` the test is
restated without square roots (`d < 0`, or `d ≥ 0` and
`d² < 0.95²·(r·r)(t·t)`) — the equivalence is proved in
`diverged_iff_cosineLt` below.  When either vector has zero magnitude,
numpy division by the zero norm yields NaN components, the dot product
is NaN, and the float comparison `NaN < 0.95` is `False`; hence the
explicit `false` in that branch. -/
def diverged (r t : Vec3) : Bool :=
  if dot3 r r = 0 ∨ dot3 t t = 0 then false
  else if dot3 r t < 0 then true
  else decide ((dot3 r t) ^ 2 < DIRECTION_TOLERANCE ^ 2 * (dot3 r r * dot3 t t))

/-- Embedding of `GroundDetector._check_condition` (source lines
90-122) for a present (non-`None`) position.  `rospy.get_time()` is
modelled by the explicit `currentTime` argument.  Returns the boolean
result together with the updated detector state. -/
def checkCondition (s : DetectorState) (newPosition : Vec3) (currentTime : ℚ) :
    Bool × DetectorState :=
  match s.last with
  | none => (false, { s with last := some (newPosition, currentTime) })
  | some (lastPosition, lastTime) =>
    let deltaD := newPosition - lastPosition
    let deltaT := currentTime - lastTime
    if npIsClose deltaT 0 (1 / 100000) (1 / 10000) then
      (false, s)
    else
      let velocityZ := deltaD.sdiv deltaT
      let w := s.trendingVelocity.append velocityZ
      let s1 : DetectorState :=
        { s with last := some (newPosition, currentTime), trendingVelocity := w }
      match s.referenceVelocity with
      | none =>
        if w.valid then
          if s.samplesSkipped + 1 ≤ SKIP_SAMPLES_COUNT then
            (false, { s1 with samplesSkipped := s.samplesSkipped + 1 })
          else
            (false, { s1 with samplesSkipped := s.samplesSkipped + 1,
                              referenceVelocity := some w.value })
        else (false, s1)
      | some ref => (diverged ref w.value, s1)

/-- Embedding of `GroundDetector._tf_2_method` (source lines 159-160),
the strategy installed as `_check_ground_method` at construction (line
71), i.e. what `detect()` runs.  `lookup` is the result of
`_tf_lookup_position`: `none` when the tf2 lookup raised and the
handler returned `None` (lines 151-157).  `_check_condition`
dereferences `new_position.x` in both of its branches (lines 95-96 and
99-100) before mutating anything, so a `None` argument raises
`AttributeError` with the state untouched; that dereference is modelled
here at the call site. -/
def tf2Method (s : DetectorState) (lookup : Option Vec3) (currentTime : ℚ) :
    Except PyError (Bool × DetectorState) :=
  match lookup with
  | none => .error .attributeError
  | some pos => .ok (checkCondition s pos currentTime)

/-- Embedding of the pull-mode `ground_position` property (source lines
162-169): `_query_ground_position_method` returns `self._last_position`
(line 79); `Point(position[0], ...)` raises `TypeError` when that is
still `None`. -/
def groundPositionTf (s : DetectorState) : Except PyError Vec3 :=
  match s.last with
  | none => .error .typeError
  | some (p, _) => .ok p

/-- Message type of the `/gazebo/link_states` topic: parallel lists of
link names and poses (positions). -/
structure LinkStates where
  name : List String
  pose : List Vec3

/-- Embedding of `GroundDetector._handle_link_states` (source lines
124-140): once ground is detected further readings are ignored; a
snapshot without the scoop-tip link is skipped (logged, non-fatal);
otherwise the position feeds `_check_condition` and its boolean is
stored in `_ground_detected`. -/
def handleLinkStates (s : DetectorState) (data : LinkStates) (currentTime : ℚ) :
    Except PyError DetectorState :=
  if s.groundDetected then .ok s
  else
    match data.name.findIdx? (· = "lander::l_scoop_tip") with
    | none => .ok s
    | some idx =>
      match data.pose.get? idx with
      | none => .error .indexError
      | some pos =>
        let r := checkCondition s pos currentTime
        .ok { r.2 with groundDetected := r.1 }

/-- Embedding of `GroundDetector._gazebo_link_states_method` (source
lines 142-144). -/
def gazeboLinkStatesMethod (s : DetectorState) : Bool :=
  s.groundDetected

/-- Runs a sequence of `_check_condition` calls (position, time) from a
state, collecting the returned booleans. -/
def runDetect (s : DetectorState) (inputs : List (Vec3 × ℚ)) : List Bool × DetectorState :=
  match inputs with
  | [] => ([], s)
  | (p, t) :: rest =>
    let r := checkCondition s p t
    let rr := runDetect r.2 rest
    (r.1 :: rr.1, rr.2)

/-- Runs a sequence of pull-mode `detect()` calls, each given the
outcome of its tf lookup and the current time. -/
def runTf (s : DetectorState) (inputs : List (Option Vec3 × ℚ)) :
    Except PyError (List Bool × DetectorState) :=
  match inputs with
  | [] => .ok ([], s)
  | (o, t) :: rest =>
    match tf2Method s o t with
    | .error e => .error e
    | .ok (b, s1) =>
      match runTf s1 rest with
      | .error e => .error e
      | .ok (bs, sf) => .ok (b :: bs, sf)

/-- Runs a sequence of link-states updates through the push-mode
handler. -/
def runPush (s : DetectorState) (updates : List (LinkStates × ℚ)) :
    Except PyError DetectorState :=
  match updates with
  | [] => .ok s
  | (d, t) :: rest =>
    match handleLinkStates s d t with
    | .error e => .error e
    | .ok s1 => runPush s1 rest

/-- Concrete pull-mode input trace: a steady descent at velocity
(0,0,-1) long enough to establish the reference, one diverging sample
(call 11), then steady descent again so the diverging velocity is
evicted from the window. -/
def c2Trace : List (Option Vec3 × ℚ) :=
  [ (some ⟨0,0,0⟩, 0), (some ⟨0,0,-1⟩, 1), (some ⟨0,0,-2⟩, 2), (some ⟨0,0,-3⟩, 3),
    (some ⟨0,0,-4⟩, 4), (some ⟨0,0,-5⟩, 5), (some ⟨0,0,-6⟩, 6), (some ⟨0,0,-7⟩, 7),
    (some ⟨0,0,-8⟩, 8), (some ⟨0,0,-9⟩, 9), (some ⟨0,0,-10⟩, 10),
    (some ⟨1,0,-9⟩, 11), (some ⟨1,0,-10⟩, 12), (some ⟨1,0,-11⟩, 13),
    (some ⟨1,0,-12⟩, 14), (some ⟨1,0,-13⟩, 15), (some ⟨1,0,-14⟩, 16) ]

/-- Booleans returned by the successive `detect()` calls of `c2Trace`. -/
def c2Outs : List Bool :=
  match runTf resetState c2Trace with
  | .ok (outs, _) => outs
  | .error _ => []

/-- Concrete pull-mode input trace: a steady descent at velocity
(0,0,-1) establishes the reference, then one sample (call 11) whose
velocity (0,0,4) makes the window mean the zero vector. -/
def c4Trace : List (Option Vec3 × ℚ) :=
  [ (some ⟨0,0,0⟩, 0), (some ⟨0,0,-1⟩, 1), (some ⟨0,0,-2⟩, 2), (some ⟨0,0,-3⟩, 3),
    (some ⟨0,0,-4⟩, 4), (some ⟨0,0,-5⟩, 5), (some ⟨0,0,-6⟩, 6), (some ⟨0,0,-7⟩, 7),
    (some ⟨0,0,-8⟩, 8), (some ⟨0,0,-9⟩, 9), (some ⟨0,0,-10⟩, 10),
    (some ⟨0,0,-6⟩, 11) ]

/-- Booleans returned by the successive `detect()` calls of `c4Trace`. -/
def c4Outs : List Bool :=
  match runTf resetState c4Trace with
  | .ok (outs, _) => outs
  | .error _ => []

/-- Detector state after running `c4Trace`. -/
def c4Final : DetectorState :=
  match runTf resetState c4Trace with
  | .ok (_, s) => s
  | .error _ => resetState

/-- Concrete detector state with an established reference velocity and
a four-sample window, one sample short of full. -/
def c4WitnessState : DetectorState :=
  { last := some (⟨0,0,0⟩, 0)
    groundDetected := false
    samplesSkipped := 6
    trendingVelocity :=
      { que := [⟨0,0,-1⟩, ⟨0,0,-1⟩, ⟨0,0,-1⟩, ⟨0,0,-1⟩], size := 5, method := npMean }
    referenceVelocity := some ⟨0,0,-1⟩ }

/-- Progress measure for the pre-reference phase: counts the one-off
"first sample stored" event, the window fill level, and the skip count
beyond its first increment (which coincides with the fifth append).
Each `_check_condition` call increases it by at most one. -/
def phiMeasure (s : DetectorState) : ℕ :=
  (if s.last.isSome then 1 else 0) + s.trendingVelocity.que.length +
    (s.samplesSkipped - 1)

/-- Invariant of the first calls after `reset()`: no reference velocity
yet, a size-5 window at most full, a positive skip count forcing a full
window, and at most `k` progress events after `k` calls. -/
def PreDetect (k : ℕ) (s : DetectorState) : Prop :=
  s.referenceVelocity = none ∧
  s.trendingVelocity.size = ROLLING_AVERAGE_WINDOW ∧
  s.trendingVelocity.que.length ≤ ROLLING_AVERAGE_WINDOW ∧
  (1 ≤ s.samplesSkipped → s.trendingVelocity.que.length = ROLLING_AVERAGE_WINDOW) ∧
  phiMeasure s ≤ k

theorem vec3_sub_def (a b : Vec3) : a - b = ⟨a.x - b.x, a.y - b.y, a.z - b.z⟩ := rfl

theorem vec3_add_def (a b : Vec3) : a + b = ⟨a.x + b.x, a.y + b.y, a.z + b.z⟩ := rfl

theorem vec3_zero_def : (0 : Vec3) = ⟨0, 0, 0⟩ := rfl

theorem vec3_zero_x : Vec3.x 0 = 0 := rfl

theorem vec3_zero_y : Vec3.y 0 = 0 := rfl

theorem vec3_zero_z : Vec3.z 0 = 0 := rfl

theorem vec3_add_x (a b : Vec3) : (a + b).x = a.x + b.x := rfl

theorem vec3_add_y (a b : Vec3) : (a + b).y = a.y + b.y := rfl

theorem vec3_add_z (a b : Vec3) : (a + b).z = a.z + b.z := rfl

theorem foldl_vadd_x (l : List Vec3) : ∀ a : Vec3,
    (l.foldl (· + ·) a).x = a.x + (l.map Vec3.x).sum := by
  induction l with
  | nil => intro a; simp
  | cons v tl ih => intro a; simp [ih, vec3_add_x]; ring

theorem foldl_vadd_y (l : List Vec3) : ∀ a : Vec3,
    (l.foldl (· + ·) a).y = a.y + (l.map Vec3.y).sum := by
  induction l with
  | nil => intro a; simp
  | cons v tl ih => intro a; simp [ih, vec3_add_y]; ring

theorem foldl_vadd_z (l : List Vec3) : ∀ a : Vec3,
    (l.foldl (· + ·) a).z = a.z + (l.map Vec3.z).sum := by
  induction l with
  | nil => intro a; simp
  | cons v tl ih => intro a; simp [ih, vec3_add_z]; ring

/-- Claim C1: in the pull-based strategy, a `detect()` call whose tf2
pose lookup fails is NOT handled gracefully: `_tf_lookup_position`
returns `None`, and `_check_condition` dereferences `new_position.x`,
raising `AttributeError` before any state is mutated.  This contradicts
the claim that `detect()` returns a boolean without raising; the run is
aborted by the exception (so indeed no detector state is mutated). -/
theorem tf_lookup_failure_raises (s : DetectorState) (t : ℚ) :
    tf2Method s none t = Except.error PyError.attributeError := rfl

/-- Claim C2, counterexample: under the active pull-based strategy
(`_tf_2_method`, installed unconditionally at construction), detection
does not latch.  On the concrete trace `c2Trace` the 12th `detect()`
call (index 11) returns `true`, yet the 17th call (index 16) returns
`false` with no intervening `reset()`. -/
theorem detect_not_latched_counterexample :
    c2Outs[11]? = some true ∧ c2Outs[16]? = some false := by
  norm_num [c2Outs, c2Trace, runTf, tf2Method, checkCondition, resetState,
    SlidingWindow.append, SlidingWindow.valid, SlidingWindow.value, npMean, npIsClose,
    diverged, Vec3.sdiv, dot3, SKIP_SAMPLES_COUNT, ROLLING_AVERAGE_WINDOW,
    DIRECTION_TOLERANCE, vec3_sub_def, vec3_add_def, vec3_zero_def, vec3_zero_x,
    vec3_zero_y, vec3_zero_z]

/-- Claim C2, amended: only the push-based gazebo strategy latches.
Once `_ground_detected` is true, every further link-states update
returns immediately and leaves the state unchanged, and the gazebo
detect method keeps returning `true` until `reset()`.  (The active
pull-based strategy recomputes the divergence check on every call and
can return `false` after a call returned `true`, as
`detect_not_latched_counterexample` shows.) -/
theorem gazebo_detection_latches (s : DetectorState) (updates : List (LinkStates × ℚ))
    (h : s.groundDetected = true) :
    runPush s updates = Except.ok s ∧ gazeboLinkStatesMethod s = true := by
  refine ⟨?_, h⟩
  induction updates with
  | nil => rfl
  | cons u rest ih =>
    obtain ⟨d, t⟩ := u
    show runPush s ((d, t) :: rest) = Except.ok s
    unfold runPush handleLinkStates
    rw [if_pos h]
    exact ih

/-- Witness for `gazebo_detection_latches` at a concrete latched state
and a concrete update list. -/
theorem gazebo_detection_latches_witness :
    runPush { resetState with groundDetected := true }
        [(⟨["lander::l_scoop_tip"], [⟨0,0,0⟩]⟩, 1)]
      = Except.ok { resetState with groundDetected := true } ∧
    gazeboLinkStatesMethod { resetState with groundDetected := true } = true :=
  gazebo_detection_latches _ _ rfl

/-- Claim C4, counterexample: on the concrete trace `c4Trace` the
reference velocity is established as (0,0,-1) and the final sample
drives the window's summarized trending vector to the zero vector; the
`detect()` call for that sample (index 11) returns `false`, not `true`:
the code does not treat the zero-magnitude case as maximal divergence. -/
theorem zero_trending_counterexample :
    c4Final.referenceVelocity = some ⟨0, 0, -1⟩ ∧
    c4Final.trendingVelocity.value = ⟨0, 0, 0⟩ ∧
    c4Outs[11]? = some false := by
  norm_num [c4Final, c4Outs, c4Trace, runTf, tf2Method, checkCondition, resetState,
    SlidingWindow.append, SlidingWindow.valid, SlidingWindow.value, npMean, npIsClose,
    diverged, Vec3.sdiv, dot3, SKIP_SAMPLES_COUNT, ROLLING_AVERAGE_WINDOW,
    DIRECTION_TOLERANCE, vec3_sub_def, vec3_add_def, vec3_zero_def, vec3_zero_x,
    vec3_zero_y, vec3_zero_z, Vec3.mk.injEq]

/-- Claim C4, amended: when the summarized trending vector has zero
magnitude after the reference is established, the divergence check is
still defined and does not crash, but it does not signal divergence:
numpy normalization of the zero vector produces NaN components, the
cosine similarity is NaN, the comparison `NaN < 0.95` is `False`, and
`detect()` returns `false` for that call. -/
theorem zero_trending_returns_false (s : DetectorState) (pos lp : Vec3) (t lt : ℚ) (r : Vec3)
    (hlast : s.last = some (lp, lt))
    (hacc : npIsClose (t - lt) 0 (1 / 100000) (1 / 10000) = false)
    (href : s.referenceVelocity = some r)
    (hzero : (s.trendingVelocity.append ((pos - lp).sdiv (t - lt))).value = 0) :
    (checkCondition s pos t).1 = false := by
  have hz : dot3 (0 : Vec3) 0 = 0 := by
    norm_num [dot3, vec3_zero_x, vec3_zero_y, vec3_zero_z]
  simp only [checkCondition, hlast, hacc, Bool.false_eq_true, if_false, href, hzero]
  unfold diverged
  rw [if_pos (Or.inr hz)]

/-- Witness for `zero_trending_returns_false` at a concrete state whose
appended window averages to the zero vector. -/
theorem zero_trending_returns_false_witness :
    (checkCondition c4WitnessState ⟨0, 0, 4⟩ 1).1 = false :=
  zero_trending_returns_false c4WitnessState ⟨0, 0, 4⟩ ⟨0, 0, 0⟩ 1 0 ⟨0, 0, -1⟩
    rfl
    (by norm_num [npIsClose])
    rfl
    (by
      norm_num [c4WitnessState, SlidingWindow.append, SlidingWindow.value, npMean,
        Vec3.sdiv, vec3_sub_def, vec3_add_def, vec3_zero_x, vec3_zero_y,
        vec3_zero_z, Vec3.mk.injEq]
      exact vec3_zero_def.symm)

/-- Claim C7: a sample whose time delta from the last accepted sample
is within the `np.isclose` tolerance of zero (|Δt| ≤ 1/10000) is
discarded with no state mutation at all: `_check_condition` returns
`False` and the state — last position/time, window, skip counter,
reference velocity — is exactly the input state. -/
theorem degenerate_timestep_discarded (s : DetectorState) (pos lp : Vec3) (t lt : ℚ)
    (hlast : s.last = some (lp, lt)) (hdt : |t - lt| ≤ 1 / 10000) :
    checkCondition s pos t = (false, s) := by
  have hc : npIsClose (t - lt) 0 (1 / 100000) (1 / 10000) = true := by
    unfold npIsClose
    rw [decide_eq_true_eq]
    simpa using hdt
  simp only [checkCondition, hlast, hc, if_true]

/-- Witness for `degenerate_timestep_discarded` at a concrete state and
a duplicate-tick sample. -/
theorem degenerate_timestep_discarded_witness :
    checkCondition c4WitnessState ⟨5, 5, 5⟩ (1 / 20000) = (false, c4WitnessState) :=
  degenerate_timestep_discarded c4WitnessState ⟨5, 5, 5⟩ ⟨0, 0, 0⟩ (1 / 20000) 0
    rfl (by rw [abs_of_pos (by norm_num : (0:ℚ) < 1 / 20000 - 0)]; norm_num)

/-- Claim C10: in the pull-based strategy, reading `ground_position`
while the last-known position is still unset (right after construction
or `reset()`) does not produce a `Point`: `Point(position[0], ...)` on
the `None` position raises `TypeError`. -/
theorem ground_position_unset_fails (s : DetectorState) (h : s.last = none) :
    groundPositionTf s = Except.error PyError.typeError := by
  unfold groundPositionTf
  rw [h]

/-- Witness for `ground_position_unset_fails` at the reset state. -/
theorem ground_position_unset_fails_witness :
    groundPositionTf resetState = Except.error PyError.typeError :=
  ground_position_unset_fails resetState rfl

/-- Claim C9: on a window whose summarization method is the
`np.mean(·, axis=0)` reducer installed by `reset()`, the `value`
property is the elementwise (component-wise) arithmetic mean of the
stored vectors. -/
theorem slidingWindow_value_mean (w : SlidingWindow Vec3)
    (hm : w.method = npMean) (_hfull : w.que.length = w.size) (_hN : 1 ≤ w.size) :
    (w.value).x = ((w.que.map Vec3.x).sum) / (w.que.length : ℚ) ∧
    (w.value).y = ((w.que.map Vec3.y).sum) / (w.que.length : ℚ) ∧
    (w.value).z = ((w.que.map Vec3.z).sum) / (w.que.length : ℚ) := by
  unfold SlidingWindow.value
  rw [hm]
  unfold npMean Vec3.sdiv
  refine ⟨?_, ?_, ?_⟩
  · simp [foldl_vadd_x, vec3_zero_x]
  · simp [foldl_vadd_y, vec3_zero_y]
  · simp [foldl_vadd_z, vec3_zero_z]

/-- Witness for `slidingWindow_value_mean` on a concrete full window of
two vectors. -/
theorem slidingWindow_value_mean_witness :
    ((⟨[⟨1, 2, 3⟩, ⟨3, 4, 5⟩], 2, npMean⟩ : SlidingWindow Vec3).value).x
      = ((([⟨1, 2, 3⟩, ⟨3, 4, 5⟩] : List Vec3).map Vec3.x).sum) /
        ((([(⟨1, 2, 3⟩ : Vec3), ⟨3, 4, 5⟩] : List Vec3).length : ℚ)) :=
  (slidingWindow_value_mean ⟨[⟨1, 2, 3⟩, ⟨3, 4, 5⟩], 2, npMean⟩ rfl rfl
    (by norm_num)).1

/-- Claim C8: the reference velocity, once set, is never reassigned or
cleared by further `_check_condition` calls (only `reset()` clears it);
while it is unset it stays unset through the whole transient-skip
phase; and the divergence check mutates neither the stored reference
nor the window beyond the FIFO append of the new velocity sample (the
normalization operates on deep copies). -/
theorem reference_velocity_set_once (s : DetectorState) (pos : Vec3) (t : ℚ) (r : Vec3) :
    (s.referenceVelocity = some r →
      (checkCondition s pos t).2.referenceVelocity = some r ∧
      ((checkCondition s pos t).2.trendingVelocity = s.trendingVelocity ∨
       ∃ v, (checkCondition s pos t).2.trendingVelocity = s.trendingVelocity.append v)) ∧
    (s.referenceVelocity = none → s.samplesSkipped + 1 ≤ SKIP_SAMPLES_COUNT →
      (checkCondition s pos t).2.referenceVelocity = none) := by
  cases hl : s.last with
  | none =>
    constructor
    · intro href
      exact ⟨by simpa [checkCondition, hl] using href, by simp [checkCondition, hl]⟩
    · intro href _
      simpa [checkCondition, hl] using href
  | some pr =>
    obtain ⟨lp, lt⟩ := pr
    cases hc : npIsClose (t - lt) 0 (1 / 100000) (1 / 10000) with
    | true =>
      constructor
      · intro href
        exact ⟨by simpa [checkCondition, hl, hc, -one_div] using href,
               by simp [checkCondition, hl, hc, -one_div]⟩
      · intro href _
        simpa [checkCondition, hl, hc, -one_div] using href
    | false =>
      cases href : s.referenceVelocity with
      | none =>
        constructor
        · intro h
          simp at h
        · intro _ hskip
          cases hv : (s.trendingVelocity.append ((pos - lp).sdiv (t - lt))).valid with
          | true => simp [checkCondition, hl, hc, href, hv, hskip, -one_div]
          | false => simp [checkCondition, hl, hc, href, hv, -one_div]
      | some ref =>
        constructor
        · intro h
          injection h with h
          subst h
          constructor
          · simp [checkCondition, hl, hc, href, -one_div]
          · exact Or.inr ⟨(pos - lp).sdiv (t - lt),
              by simp [checkCondition, hl, hc, href, -one_div]⟩
        · intro h
          exact absurd h (by simp)

/-- Witness for `reference_velocity_set_once`: the first part applied
at a state with the reference set, the second at the reset state. -/
theorem reference_velocity_set_once_witness :
    (checkCondition c4WitnessState ⟨1, 1, 1⟩ 1).2.referenceVelocity = some ⟨0, 0, -1⟩ ∧
    (checkCondition resetState ⟨1, 1, 1⟩ 1).2.referenceVelocity = none :=
  ⟨((reference_velocity_set_once c4WitnessState ⟨1, 1, 1⟩ 1 ⟨0, 0, -1⟩).1 rfl).1,
   (reference_velocity_set_once resetState ⟨1, 1, 1⟩ 1 ⟨0, 0, -1⟩).2 rfl
     (by norm_num [resetState, SKIP_SAMPLES_COUNT])⟩

theorem appendAll_size {α : Type} (w : SlidingWindow α) (vs : List α) :
    (appendAll w vs).size = w.size := by
  induction vs generalizing w with
  | nil => rfl
  | cons v tl ih =>
    show (appendAll (w.append v) tl).size = w.size
    rw [ih]
    rfl

theorem dropLast_reverse_eq {α : Type} (l : List α) :
    l.reverse.dropLast = (l.drop 1).reverse := by
  cases l with
  | nil => rfl
  | cons a t => simp

/-- Characterization of a window built by `k` appends from empty: the
deque holds `min k N` elements, and read back-to-front (oldest first)
it is exactly the last `min k N` appended values in arrival order. -/
theorem appendAll_characterization {α : Type} (N : ℕ) (hN : 1 ≤ N)
    (method : List α → α) (vs : List α) :
    ∀ k, k ≤ vs.length →
      (appendAll ⟨[], N, method⟩ (vs.take k)).que.length = min k N ∧
      (appendAll ⟨[], N, method⟩ (vs.take k)).que.reverse = (vs.take k).drop (k - N) := by
  intro k
  induction k with
  | zero => intro _; constructor <;> simp [appendAll]
  | succ k ih =>
    intro hk1
    have hk : k ≤ vs.length := Nat.le_of_succ_le hk1
    obtain ⟨hlen, hrev⟩ := ih hk
    have hklt : k < vs.length := hk1
    have htake : vs.take (k + 1) = vs.take k ++ [vs[k]] := by
      rw [List.take_succ, List.getElem?_eq_getElem hklt]
      rfl
    have happ : appendAll (⟨[], N, method⟩ : SlidingWindow α) (vs.take (k + 1))
        = (appendAll ⟨[], N, method⟩ (vs.take k)).append vs[k] := by
      rw [htake]
      unfold appendAll
      rw [List.foldl_append]
      rfl
    have hsize : (appendAll (⟨[], N, method⟩ : SlidingWindow α) (vs.take k)).size = N :=
      appendAll_size _ _
    rw [happ]
    by_cases hNk : N ≤ k
    · have hlenN : (appendAll (⟨[], N, method⟩ : SlidingWindow α) (vs.take k)).que.length
          = N := by rw [hlen]; omega
      constructor
      · simp only [SlidingWindow.append, hsize, hlenN, if_pos (le_refl N),
          List.length_cons, List.length_dropLast]
        omega
      · simp only [SlidingWindow.append, hsize, hlenN, if_pos (le_refl N)]
        rw [List.reverse_cons]
        have hq : (appendAll (⟨[], N, method⟩ : SlidingWindow α) (vs.take k)).que
            = ((vs.take k).drop (k - N)).reverse := by
          rw [← hrev, List.reverse_reverse]
        rw [hq, dropLast_reverse_eq, List.reverse_reverse, List.drop_drop]
        rw [htake, List.drop_append_of_le_length
          (by rw [List.length_take]; omega)]
        have : k - N + 1 = k + 1 - N := by omega
        rw [this]
    · push_neg at hNk
      have hlenk : (appendAll (⟨[], N, method⟩ : SlidingWindow α) (vs.take k)).que.length
          = k := by rw [hlen]; omega
      constructor
      · simp only [SlidingWindow.append, hsize, hlenk,
          if_neg (by omega : ¬ N ≤ k), List.length_cons]
        omega
      · simp only [SlidingWindow.append, hsize, hlenk, if_neg (by omega : ¬ N ≤ k)]
        rw [List.reverse_cons, hrev]
        have h0 : k - N = 0 := by omega
        have h0' : k + 1 - N = 0 := by omega
        rw [h0, h0', List.drop_zero, List.drop_zero, htake]

/-- Claim C5: for every capacity N ≥ 1 and sequence of more than N
appends into a fresh window, after each prefix of k appends the stored
length never exceeds N, `valid` holds exactly once N values have been
appended (and hence stays true for all larger k, until a reset), and
the stored contents are exactly the min(k,N) most recently appended
values — the deque read back-to-front (oldest first) equals them in
arrival order. -/
theorem sliding_window_fifo (α : Type) (N : ℕ) (hN : 1 ≤ N) (method : List α → α)
    (vs : List α) (_hvs : N < vs.length) :
    ∀ k, k ≤ vs.length →
      (appendAll ⟨[], N, method⟩ (vs.take k)).que.length ≤ N ∧
      ((appendAll ⟨[], N, method⟩ (vs.take k)).valid = true ↔ N ≤ k) ∧
      (appendAll ⟨[], N, method⟩ (vs.take k)).que.reverse = (vs.take k).drop (k - N) := by
  intro k hk
  obtain ⟨hlen, hrev⟩ := appendAll_characterization N hN method vs k hk
  refine ⟨?_, ?_, hrev⟩
  · rw [hlen]; exact min_le_right _ _
  · unfold SlidingWindow.valid
    rw [appendAll_size, hlen]
    rw [beq_iff_eq]
    show min k N = N ↔ N ≤ k
    omega

/-- Witness for `sliding_window_fifo` on a concrete window of capacity
2 receiving 3 appends. -/
theorem sliding_window_fifo_witness :
    (appendAll (⟨[], 2, fun _ => 0⟩ : SlidingWindow ℕ) (([10, 20, 30] : List ℕ).take 3)).que.length ≤ 2 ∧
    ((appendAll (⟨[], 2, fun _ => 0⟩ : SlidingWindow ℕ) (([10, 20, 30] : List ℕ).take 3)).valid = true ↔ 2 ≤ 3) ∧
    (appendAll (⟨[], 2, fun _ => 0⟩ : SlidingWindow ℕ) (([10, 20, 30] : List ℕ).take 3)).que.reverse
      = (([10, 20, 30] : List ℕ).take 3).drop (3 - 2) :=
  sliding_window_fifo ℕ 2 (by norm_num) (fun _ => 0) [10, 20, 30] (by norm_num) 3 (by norm_num)

theorem append_que_length {α : Type} (w : SlidingWindow α) (v : α) (h1 : 1 ≤ w.size) :
    (w.append v).que.length
      = if w.size ≤ w.que.length then w.que.length else w.que.length + 1 := by
  unfold SlidingWindow.append
  by_cases h : w.size ≤ w.que.length
  · simp only [h, if_pos, List.length_cons, List.length_dropLast]
    omega
  · simp [h]

theorem checkCondition_first_calls_false (s : DetectorState) (p : Vec3) (t : ℚ) (k : ℕ)
    (hk : k ≤ 9) (hs : PreDetect k s) :
    (checkCondition s p t).1 = false ∧ PreDetect (k + 1) (checkCondition s p t).2 := by
  obtain ⟨href, hsize, hlenle, hskiplen, hphi⟩ := hs
  have hR : ROLLING_AVERAGE_WINDOW = 5 := rfl
  have hS : SKIP_SAMPLES_COUNT = 5 := rfl
  have hlen5 : s.trendingVelocity.que.length ≤ 5 := hR ▸ hlenle
  have hskiplen5 : 1 ≤ s.samplesSkipped → s.trendingVelocity.que.length = 5 :=
    fun h => hR ▸ hskiplen h
  cases hl : s.last with
  | none =>
    have hred : checkCondition s p t = (false, { s with last := some (p, t) }) := by
      simp only [checkCondition, hl]
    rw [hred]
    refine ⟨rfl, href, hsize, hlenle, hskiplen, ?_⟩
    simp [phiMeasure, hl] at hphi
    simp [phiMeasure]
    omega
  | some pr =>
    obtain ⟨lp, lt⟩ := pr
    simp [phiMeasure, hl] at hphi
    cases hc : npIsClose (t - lt) 0 (1 / 100000) (1 / 10000) with
    | true =>
      have hred : checkCondition s p t = (false, s) := by
        simp only [checkCondition, hl]
        rw [if_pos hc]
      rw [hred]
      refine ⟨rfl, href, hsize, hlenle, hskiplen, ?_⟩
      simp [phiMeasure, hl]
      omega
    | false =>
      have hlw := append_que_length s.trendingVelocity ((p - lp).sdiv (t - lt))
        (by rw [hsize, hR]; norm_num)
      rw [hsize, hR] at hlw
      have hneg : ¬ (npIsClose (t - lt) 0 (1 / 100000) (1 / 10000) = true) := by
        rw [hc]
        exact Bool.false_ne_true
      cases hv : (s.trendingVelocity.append ((p - lp).sdiv (t - lt))).valid with
      | true =>
        have hlv : (s.trendingVelocity.append ((p - lp).sdiv (t - lt))).que.length = 5 := by
          have h2 := hv
          unfold SlidingWindow.valid at h2
          rw [beq_iff_eq] at h2
          rw [h2]
          show s.trendingVelocity.size = 5
          rw [hsize, hR]
        by_cases hsk : s.samplesSkipped + 1 ≤ SKIP_SAMPLES_COUNT
        · have hred : checkCondition s p t
              = (false,
                  { s with
                      last := some (p, t)
                      trendingVelocity := s.trendingVelocity.append ((p - lp).sdiv (t - lt))
                      samplesSkipped := s.samplesSkipped + 1 }) := by
            simp only [checkCondition, hl, href]
            rw [if_neg hneg, if_pos hv, if_pos hsk]
          rw [hred]
          refine ⟨rfl, href, hsize, ?_, ?_, ?_⟩
          · show (s.trendingVelocity.append ((p - lp).sdiv (t - lt))).que.length
              ≤ ROLLING_AVERAGE_WINDOW
            rw [hlv, hR]
          · intro _
            show (s.trendingVelocity.append ((p - lp).sdiv (t - lt))).que.length
              = ROLLING_AVERAGE_WINDOW
            rw [hlv, hR]
          · simp [phiMeasure]
            rw [hlv]
            by_cases h5 : 5 ≤ s.trendingVelocity.que.length
            · rw [if_pos h5] at hlw
              omega
            · rw [if_neg h5] at hlw
              have hskip0 : s.samplesSkipped = 0 := by
                by_contra hne
                have := hskiplen5 (by omega)
                omega
              omega
        · exfalso
          rw [hS] at hsk
          have hfull := hskiplen5 (by omega)
          omega
      | false =>
        have hlv : (s.trendingVelocity.append ((p - lp).sdiv (t - lt))).que.length ≠ 5 := by
          intro hcon
          have h2 : (s.trendingVelocity.append ((p - lp).sdiv (t - lt))).valid = true := by
            unfold SlidingWindow.valid
            rw [beq_iff_eq, hcon]
            show (5 : ℕ) = s.trendingVelocity.size
            rw [hsize, hR]
          rw [hv] at h2
          exact Bool.false_ne_true h2
        have hskip0 : s.samplesSkipped = 0 := by
          by_contra hne
          have hfull := hskiplen5 (by omega)
          rw [hfull] at hlw
          rw [if_pos (by norm_num)] at hlw
          exact hlv (by rw [hlw])
        have hnotv : ¬ ((s.trendingVelocity.append ((p - lp).sdiv (t - lt))).valid = true) := by
          rw [hv]
          exact Bool.false_ne_true
        have hred : checkCondition s p t
            = (false,
                { s with
                    last := some (p, t)
                    trendingVelocity := s.trendingVelocity.append ((p - lp).sdiv (t - lt)) }) := by
          simp only [checkCondition, hl, href]
          rw [if_neg hneg, if_neg hnotv]
        rw [hred]
        have hlt4 : s.trendingVelocity.que.length < 5 := by
          by_contra h5
          have hq5 : s.trendingVelocity.que.length = 5 := by omega
          rw [hq5, if_pos (by norm_num)] at hlw
          exact hlv (by rw [hlw])
        rw [if_neg (by omega)] at hlw
        refine ⟨rfl, href, hsize, ?_, ?_, ?_⟩
        · show (s.trendingVelocity.append ((p - lp).sdiv (t - lt))).que.length
            ≤ ROLLING_AVERAGE_WINDOW
          rw [hlw, hR]
          omega
        · intro h1
          exfalso
          have h1s : 1 ≤ s.samplesSkipped := h1
          omega
        · simp [phiMeasure]
          rw [hlw, hskip0]
          rw [hskip0] at hphi
          omega

theorem runDetect_prefix_false (inputs : List (Vec3 × ℚ)) :
    ∀ (s : DetectorState) (k n : ℕ), PreDetect k s → k + n ≤ 10 → n ≤ inputs.length →
      (runDetect s inputs).1.take n = List.replicate n false := by
  induction inputs with
  | nil =>
    intro s k n _ _ hn
    have hn0 : n = 0 := by simpa using hn
    subst hn0
    rfl
  | cons it rest ih =>
    intro s k n hs hkn hn
    obtain ⟨p, t⟩ := it
    cases n with
    | zero => rfl
    | succ m =>
      have hk9 : k ≤ 9 := by omega
      obtain ⟨hres, hpre⟩ := checkCondition_first_calls_false s p t k hk9 hs
      show ((checkCondition s p t).1 :: (runDetect (checkCondition s p t).2 rest).1).take (m + 1)
          = List.replicate (m + 1) false
      rw [List.take_succ_cons, hres,
        ih (checkCondition s p t).2 (k + 1) m hpre (by omega) (by simpa using hn)]
      rfl

/-- Claim C3: with the default configuration (window capacity 5,
transient-skip count 5), starting from the reset state, each of the
first ten `_check_condition` evaluations returns false for every
sample sequence with strictly increasing timestamps: the first call
only stores the position, calls 2-6 fill the velocity window, and the
window-full calls 6-10 are consumed by the transient-skip phase.  (The
11th call, which installs the reference velocity, also returns false.) -/
theorem detect_first_ten_false (samples : List (Vec3 × ℚ))
    (hlen : 10 ≤ samples.length)
    (_hmono : List.Chain' (· < ·) (samples.map Prod.snd)) :
    (runDetect resetState samples).1.take 10 = List.replicate 10 false := by
  have h0 : PreDetect 0 resetState := by
    refine ⟨rfl, rfl, by norm_num [resetState], by intro h; simp [resetState] at h, ?_⟩
    norm_num [phiMeasure, resetState]
  exact runDetect_prefix_false samples resetState 0 10 h0 (by norm_num) hlen

/-- Witness for `detect_first_ten_false` on a concrete descent of ten
samples with strictly increasing timestamps. -/
theorem detect_first_ten_false_witness :
    (runDetect resetState
      [ (⟨0,0,0⟩, 0), (⟨0,0,-1⟩, 1), (⟨0,0,-2⟩, 2), (⟨0,0,-3⟩, 3), (⟨0,0,-4⟩, 4),
        (⟨0,0,-5⟩, 5), (⟨0,0,-6⟩, 6), (⟨0,0,-7⟩, 7), (⟨0,0,-8⟩, 8),
        (⟨0,0,-9⟩, 9) ]).1.take 10 = List.replicate 10 false :=
  detect_first_ten_false _ (by norm_num)
    (by norm_num [List.chain'_cons, List.chain'_singleton])

theorem dot3_self_nonneg (v : Vec3) : 0 ≤ dot3 v v := by
  unfold dot3
  nlinarith [mul_self_nonneg v.x, mul_self_nonneg v.y, mul_self_nonneg v.z]

/-- Validation of the square-root-free reformulation used in
`diverged`: for vectors of nonzero magnitude it decides exactly the
real-number cosine-similarity test `r·t / (‖r‖‖t‖) < 0.95` that the
source computes with normalized copies. -/
theorem diverged_iff_cosineLt (r t : Vec3) (hr : dot3 r r ≠ 0) (ht : dot3 t t ≠ 0) :
    diverged r t = true ↔
      ((dot3 r t : ℚ) : ℝ) /
        (Real.sqrt ((dot3 r r : ℚ) : ℝ) * Real.sqrt ((dot3 t t : ℚ) : ℝ)) < 0.95 := by
  have ha : (0:ℚ) < dot3 r r := lt_of_le_of_ne (dot3_self_nonneg r) (Ne.symm hr)
  have hb : (0:ℚ) < dot3 t t := lt_of_le_of_ne (dot3_self_nonneg t) (Ne.symm ht)
  have haR : (0:ℝ) < ((dot3 r r : ℚ) : ℝ) := by exact_mod_cast ha
  have hbR : (0:ℝ) < ((dot3 t t : ℚ) : ℝ) := by exact_mod_cast hb
  have hsa : (0:ℝ) < Real.sqrt ((dot3 r r : ℚ) : ℝ) := Real.sqrt_pos.mpr haR
  have hsb : (0:ℝ) < Real.sqrt ((dot3 t t : ℚ) : ℝ) := Real.sqrt_pos.mpr hbR
  have hX : (0:ℝ) < Real.sqrt ((dot3 r r : ℚ) : ℝ) * Real.sqrt ((dot3 t t : ℚ) : ℝ) :=
    mul_pos hsa hsb
  have hXsq : (Real.sqrt ((dot3 r r : ℚ) : ℝ) * Real.sqrt ((dot3 t t : ℚ) : ℝ)) ^ 2
      = ((dot3 r r : ℚ) : ℝ) * ((dot3 t t : ℚ) : ℝ) := by
    rw [mul_pow, Real.sq_sqrt haR.le, Real.sq_sqrt hbR.le]
  have hDT : DIRECTION_TOLERANCE = (19 / 20 : ℚ) := by norm_num [DIRECTION_TOLERANCE]
  have h95 : (0.95 : ℝ) = (19 : ℝ) / 20 := by norm_num
  unfold diverged
  rw [if_neg (by push_neg; exact ⟨hr, ht⟩)]
  by_cases hd : dot3 r t < 0
  · rw [if_pos hd]
    have hdR : ((dot3 r t : ℚ) : ℝ) < 0 := by exact_mod_cast hd
    have hq : ((dot3 r t : ℚ) : ℝ) /
        (Real.sqrt ((dot3 r r : ℚ) : ℝ) * Real.sqrt ((dot3 t t : ℚ) : ℝ)) < 0 :=
      div_neg_of_neg_of_pos hdR hX
    constructor
    · intro _
      linarith
    · intro _
      rfl
  · rw [if_neg hd]
    rw [decide_eq_true_eq]
    push_neg at hd
    have hdR : (0:ℝ) ≤ ((dot3 r t : ℚ) : ℝ) := by exact_mod_cast hd
    rw [div_lt_iff hX, h95]
    constructor
    · intro h
      have hRR : ((dot3 r t : ℚ) : ℝ) ^ 2
          < ((19:ℝ)/20) ^ 2 * (((dot3 r r : ℚ) : ℝ) * ((dot3 t t : ℚ) : ℝ)) := by
        rw [hDT] at h
        have h2 : ((dot3 r t ^ 2 : ℚ) : ℝ)
            < (((19 / 20 : ℚ) ^ 2 * (dot3 r r * dot3 t t) : ℚ) : ℝ) := by
          exact_mod_cast h
        push_cast at h2
        convert h2 using 2
      by_contra hcon
      push_neg at hcon
      have h1 : (((19:ℝ)/20) *
          (Real.sqrt ((dot3 r r : ℚ) : ℝ) * Real.sqrt ((dot3 t t : ℚ) : ℝ))) ^ 2
          ≤ ((dot3 r t : ℚ) : ℝ) ^ 2 :=
        pow_le_pow_left (by positivity) hcon 2
      rw [mul_pow, hXsq] at h1
      linarith
    · intro h
      have h1 : ((dot3 r t : ℚ) : ℝ) ^ 2
          < (((19:ℝ)/20) *
            (Real.sqrt ((dot3 r r : ℚ) : ℝ) * Real.sqrt ((dot3 t t : ℚ) : ℝ))) ^ 2 :=
        pow_lt_pow_left h hdR (by norm_num)
      rw [mul_pow, hXsq] at h1
      rw [hDT]
      have h2 : ((dot3 r t ^ 2 : ℚ) : ℝ)
          < (((19 / 20 : ℚ) ^ 2 * (dot3 r r * dot3 t t) : ℚ) : ℝ) := by
        push_cast
        convert h1 using 2
      exact_mod_cast h2

/-- Claim C6: once the reference velocity r is established, an accepted
sample makes `detect()` return true exactly when the cosine similarity
between the unit-normalized reference and the unit-normalized
window-summarized trending vector tv is strictly below the 0.95
tolerance (both magnitudes nonzero); moreover any trending vector that
is a positive rescaling of the reference — a sequence of velocities
identical in direction to the baseline — never triggers detection. -/
theorem divergence_iff_cosine (s : DetectorState) (pos lp : Vec3) (t lt : ℚ) (r tv : Vec3)
    (hlast : s.last = some (lp, lt))
    (href : s.referenceVelocity = some r)
    (hacc : npIsClose (t - lt) 0 (1 / 100000) (1 / 10000) = false)
    (htv : tv = (s.trendingVelocity.append ((pos - lp).sdiv (t - lt))).value)
    (hr : dot3 r r ≠ 0) (ht : dot3 tv tv ≠ 0) :
    ((checkCondition s pos t).1 = true ↔
      ((dot3 r tv : ℚ) : ℝ) /
        (Real.sqrt ((dot3 r r : ℚ) : ℝ) * Real.sqrt ((dot3 tv tv : ℚ) : ℝ)) < 0.95) ∧
    (∀ c : ℚ, 0 < c → diverged r (Vec3.smul c r) = false) := by
  have hneg : ¬ (npIsClose (t - lt) 0 (1 / 100000) (1 / 10000) = true) := by
    rw [hacc]
    exact Bool.false_ne_true
  have hred : (checkCondition s pos t).1
      = diverged r ((s.trendingVelocity.append ((pos - lp).sdiv (t - lt))).value) := by
    simp only [checkCondition, hlast]
    rw [if_neg hneg]
    simp only [href]
  constructor
  · rw [hred, ← htv]
    exact diverged_iff_cosineLt r tv hr ht
  · intro c hc
    have hrr : (0:ℚ) < dot3 r r := lt_of_le_of_ne (dot3_self_nonneg r) (Ne.symm hr)
    have h1 : dot3 r (Vec3.smul c r) = c * dot3 r r := by
      unfold dot3 Vec3.smul
      ring
    have h2 : dot3 (Vec3.smul c r) (Vec3.smul c r) = c ^ 2 * dot3 r r := by
      unfold dot3 Vec3.smul
      ring
    unfold diverged
    rw [if_neg (by
      push_neg
      refine ⟨hr, ?_⟩
      rw [h2]
      positivity)]
    rw [h1]
    rw [if_neg (not_lt.mpr (mul_pos hc hrr).le)]
    rw [h2]
    apply decide_eq_false
    intro hlt
    rw [show DIRECTION_TOLERANCE = (19 / 20 : ℚ) from by norm_num [DIRECTION_TOLERANCE]]
      at hlt
    have hpos : (0:ℚ) < c ^ 2 * dot3 r r ^ 2 := by positivity
    nlinarith [hlt, hpos]

/-- Witness for `divergence_iff_cosine`: a trending vector equal to the
(0,0,-1) reference gives cosine similarity 1 ≥ 0.95, so the concrete
call returns false; and a doubled reference also never diverges. -/
theorem divergence_iff_cosine_witness :
    (checkCondition c4WitnessState ⟨0, 0, -1⟩ 1).1 = false ∧
    diverged ⟨0, 0, -1⟩ (Vec3.smul 2 ⟨0, 0, -1⟩) = false := by
  have h := divergence_iff_cosine c4WitnessState ⟨0, 0, -1⟩ ⟨0, 0, 0⟩ 1 0
    ⟨0, 0, -1⟩ ⟨0, 0, -1⟩ rfl rfl
    (by norm_num [npIsClose])
    (by
      norm_num [c4WitnessState, SlidingWindow.append, SlidingWindow.value, npMean,
        Vec3.sdiv, vec3_sub_def, vec3_add_def, vec3_zero_x, vec3_zero_y,
        vec3_zero_z, Vec3.mk.injEq])
    (by norm_num [dot3])
    (by norm_num [dot3])
  refine ⟨?_, h.2 2 (by norm_num)⟩
  rcases Bool.eq_false_or_eq_true ((checkCondition c4WitnessState ⟨0, 0, -1⟩ 1).1) with
    hres | hres
  · have hcontra := h.1.mp hres
    norm_num [dot3, Real.sqrt_one] at hcontra
  · exact hres
